import Mathlib

/-
Shallow embedding of the device model of `src/lib/models/device.js`
(resin-io/resin-sdk).

The SDK is integration glue over two external collaborators: a generic
resource/query client (`pine`) and an HTTP request layer (`request`).
Following the spec, these collaborators are not reimplemented: the backend
reachable through `pine` is modelled as the lists of records held in an
`Env`, the `pine` query evaluation is the evident semantics of the filter
data the SDK builds, and the HTTP layer is an uninterpreted response
function `Env.respond`.  The external `semver` npm package and the node
`url.resolve` are likewise uninterpreted parameters of the `Env`.

Promise chains become explicit `Except` results; every operation also
returns the ordered trace of the backend effects (pine queries, patches,
deletes, HTTP requests) it issued.  Callback plumbing (`findCallback`,
`asCallback`) has no observable content in this model and is dropped.
-/

namespace BalenaSDK

/-- The `uuidOrId` argument of the device model: a numeric id, a uuid
string, or the JS `null`/`undefined` value. -/
inductive UuidOrId where
  | id (n : Nat)
  | uuid (s : String)
  | null
  deriving Repr, DecidableEq

/-- Modelled from the spec: `isId` of `../util` is not included under
`src/`; per the spec it is the helper "for disambiguating identifiers
(uuid vs numeric id)", true exactly on numeric ids. -/
def isId : UuidOrId → Bool
  | .id _ => true
  | _ => false

/-- A device record, restricted to the attributes the modelled operations
read.  `belongs_to__application` holds the ids delivered by the
`$expand: belongs_to__application` used by the supervisor actions. -/
structure Device where
  id : Nat
  uuid : String
  device_name : String
  is_online : Bool
  supervisor_version : String
  belongs_to__application : List Nat
  deriving Repr, DecidableEq

/-- A `device_service_environment_variable` record.  The backing
`service_install` join is flattened to the `device` and `service`
attributes that the filters built in `device.js` inspect. -/
structure DeviceServiceEnvVar where
  device : Nat
  service : Nat
  name : String
  value : String
  deriving Repr, DecidableEq

/-- The device filters built by the modelled operations. -/
inductive DeviceFilter where
  | uuidStartsWith (s : String)
  | uuidEq (s : String)
  | and (f g : DeviceFilter)
  deriving Repr, DecidableEq

/-- String prefix test on the character lists (the semantics of
`String.isPrefixOf`, stated so that it computes by kernel reduction). -/
def strIsPrefixOf (p s : String) : Bool := p.data.isPrefixOf s.data

/-- Semantics of a device filter, as evaluated by the pine backend. -/
def evalDeviceFilter : DeviceFilter → Device → Bool
  | .uuidStartsWith s, d => strIsPrefixOf s d.uuid
  | .uuidEq s, d => d.uuid == s
  | .and f g, d => evalDeviceFilter f d && evalDeviceFilter g d

/-- A `$select` value: either a single field name or an array of names. -/
inductive PineSelect where
  | single (s : String)
  | multi (ss : List String)
  deriving Repr, DecidableEq

/-- The only `$expand` shape used by the modelled operations. -/
inductive PineExpand where
  | belongsToApplication (select : String)
  deriving Repr, DecidableEq

/-- Pine options as built by `device.js`. -/
structure PineOptions where
  select : Option PineSelect := none
  filter : Option DeviceFilter := none
  expand : Option PineExpand := none
  orderby : Option String := none
  deriving Repr, DecidableEq

/-- Modelled from the spec: `mergePineOptions` of `../util` is not
included under `src/`; the spec describes pine options as "declarative
query parameters ($filter, $select, $expand, $orderby) forwarded to the
remote API".  Modelled so that caller-supplied `$select`, `$expand` and
`$orderby` take precedence over the defaults and `$filter` values are
conjoined. -/
def mergePineOptions (defaults extraOptions : PineOptions) : PineOptions :=
  { select := match extraOptions.select with
      | some s => some s
      | none => defaults.select
    filter := match defaults.filter, extraOptions.filter with
      | some f, some g => some (.and f g)
      | some f, none => some f
      | none, g => g
    expand := match extraOptions.expand with
      | some e => some e
      | none => defaults.expand
    orderby := match extraOptions.orderby with
      | some o => some o
      | none => defaults.orderby }

/-- The filter built by `serviceVar.get`: the variable
`service_install` matches the device and service and its `name` is the
key. -/
structure ServiceVarFilter where
  device : Nat
  service : Nat
  name : String
  deriving Repr, DecidableEq

/-- Patch bodies built by the modelled operations; each constructor
carries exactly the fields present in the corresponding body literal of
`device.js`. -/
inductive PatchBody where
  | customLocation (custom_latitude custom_longitude : String)
  | deviceName (device_name : String)
  | supportUntil (date : Option Int)
  deriving Repr, DecidableEq

/-- Request bodies sent through the HTTP request layer. -/
inductive RequestBody where
  | reboot (deviceId : Nat) (force : Bool)
  | appAction (deviceId appId : Nat)
  | serviceAction (deviceId appId imageId : Nat)
  deriving Repr, DecidableEq

/-- An HTTP request as handed to `request.send`. -/
structure HttpRequest where
  method : String
  url : String
  baseUrl : String
  body : RequestBody
  timeout : Option Nat
  deriving Repr, DecidableEq

/-- A failed HTTP response from the request layer. -/
structure ReqError where
  statusCode : Nat
  body : String
  deriving Repr, DecidableEq

/-- A successful HTTP response from the request layer; the JSON body is
kept opaque. -/
structure HttpResponse where
  body : String
  deriving Repr, DecidableEq

/-- Modelled from the spec: `LOCKED_STATUS_CODE` of `../util` is not
included under `src/`; it is the HTTP 423 Locked status code that the
supervisor answers with while the update lock is held. -/
def LOCKED_STATUS_CODE : Nat := 423

/-- Modelled from the spec: `isNotFoundResponse` of `../util` is not
included under `src/`; it recognises a failed HTTP response with status
404 and body "Not Found". -/
def isNotFoundResponse (e : ReqError) : Bool :=
  e.statusCode == 404 && e.body == "Not Found"

/-- Errors observable from the modelled operations (`balena-errors`
classes, plain JS errors, and failed requests propagated unchanged). -/
inductive SDKError where
  | deviceNotFound (uuidOrId : UuidOrId)
  | ambiguousDevice (uuidOrId : UuidOrId)
  | supervisorLocked
  | invalidParameter (name : String) (value : Option Int)
  | incompatibleSupervisor (version minVersion : String)
  | requestError (e : ReqError)
  | jsError (msg : String)
  | jsTypeError
  deriving Repr, DecidableEq

/-- Backend effects issued by an operation, in order. -/
inductive Effect where
  | pineGetById (resource : String) (rid : Nat) (options : PineOptions)
  | pineGet (resource : String) (options : PineOptions)
  | pineGetServiceVars (resource : String) (filter : ServiceVarFilter)
  | pinePatchById (resource : String) (rid : Nat) (body : PatchBody)
  | pinePatch (resource : String) (filter : DeviceFilter) (body : PatchBody)
  | pineDelete (resource : String) (filter : DeviceFilter)
  | httpRequest (req : HttpRequest)
  deriving Repr, DecidableEq

/-- Whether an effect is a request through the HTTP request layer. -/
def Effect.isHttpRequest : Effect → Bool
  | .httpRequest _ => true
  | _ => false

/-- The environment of the device model: the records reachable through
the external pine client, and the uninterpreted external collaborators
(HTTP layer, `semver.lt`, `url.resolve`) together with the module options
`apiUrl` and `dashboardUrl`. -/
structure Env where
  devices : List Device
  serviceVars : List DeviceServiceEnvVar
  semverLt : String → String → Bool
  respond : HttpRequest → Except ReqError HttpResponse
  now : Int
  apiUrl : String
  dashboardUrl : String
  urlResolve : String → String → String

/-- Pine evaluation of a by-id get on the `device` resource. -/
def pineGetDeviceById (devices : List Device) (n : Nat) : Option Device :=
  devices.find? (fun d => d.id == n)

/-- Pine evaluation of a filtered get on the `device` resource. -/
def pineGetDevices (devices : List Device) (options : PineOptions) : List Device :=
  devices.filter (fun d =>
    match options.filter with
    | some f => evalDeviceFilter f d
    | none => true)

/-- Pine evaluation of the filtered get on
`device_service_environment_variable` issued by `serviceVar.get`. -/
def pineGetServiceVars (svars : List DeviceServiceEnvVar) (f : ServiceVarFilter) :
    List DeviceServiceEnvVar :=
  svars.filter (fun v => v.device == f.device && v.service == f.service && v.name == f.name)

/-- An operation result: the resolved value or the rejection, together
with the ordered trace of backend effects issued. -/
abbrev Result (α : Type) := Except SDKError α × List Effect

/-- Sequencing of results, mirroring a promise `.then` chain: effects
accumulate in order and a rejection short-circuits. -/
def andThen {α β : Type} (r : Result α) (f : α → Result β) : Result β :=
  match r with
  | (.ok a, es) => match f a with
    | (rb, es2) => (rb, es ++ es2)
  | (.error e, es) => (.error e, es)

namespace device

/-- The `addExtraInfo` post-processing of `device.js` calls
`normalizeDeviceOsVersion`, which only rewrites `os_version` fields that
are outside this model; on the modelled attributes it is the identity. -/
def addExtraInfo (d : Device) : Device := d

/-- Embedding of `exports.get` (device.js lines 405-455): rejects with
`BalenaDeviceNotFound` on a null identifier before issuing any query;
queries by id for numeric ids, rejecting when pine returns no device;
for uuid strings merges a `uuid $startswith` filter into the options and
disambiguates among the matching devices. -/
def get (env : Env) (uuidOrId : UuidOrId) (options : PineOptions) : Result Device :=
  match uuidOrId with
  | .null => (.error (.deviceNotFound .null), [])
  | .id n =>
    match pineGetDeviceById env.devices n with
    | some d => (.ok (addExtraInfo d), [.pineGetById "device" n options])
    | none => (.error (.deviceNotFound (.id n)), [.pineGetById "device" n options])
  | .uuid s =>
    let merged := mergePineOptions { filter := some (.uuidStartsWith s) } options
    match pineGetDevices env.devices merged with
    | [] => (.error (.deviceNotFound (.uuid s)), [.pineGet "device" merged])
    | [d] => (.ok (addExtraInfo d), [.pineGet "device" merged])
    | _ :: _ :: _ => (.error (.ambiguousDevice (.uuid s)), [.pineGet "device" merged])

/-- Embedding of the internal `getId` (device.js lines 154-161): numeric
ids pass through (`isId` holds exactly on the `.id` constructor),
otherwise the id is resolved through `exports.get` with `$select` id. -/
def getId (env : Env) (uuidOrId : UuidOrId) : Result Nat :=
  match uuidOrId with
  | .id n => (.ok n, [])
  | u => andThen (get env u { select := some (.single "id") }) fun d => (.ok d.id, [])

/-- Embedding of `exports.getAll` (device.js lines 247-260): a pine get
on the `device` resource with the caller options merged over the default
the default ordering by device name. -/
def getAll (env : Env) (options : PineOptions) : Result (List Device) :=
  let merged := mergePineOptions { orderby := some "device_name asc" } options
  (.ok ((pineGetDevices env.devices merged).map addExtraInfo), [.pineGet "device" merged])

/-- Embedding of `exports.getName` (device.js line 572): resolves the
device with `$select` device_name and projects that field. -/
def getName (env : Env) (uuidOrId : UuidOrId) : Result String :=
  andThen (get env uuidOrId { select := some (.single "device_name") }) fun d =>
    (.ok d.device_name, [])

/-- Embedding of `exports.isOnline` (device.js line 732): resolves the
device with `$select` is_online and projects that field. -/
def isOnline (env : Env) (uuidOrId : UuidOrId) : Result Bool :=
  andThen (get env uuidOrId { select := some (.single "is_online") }) fun d =>
    (.ok d.is_online, [])

/-- Embedding of `exports.has` (device.js lines 698-703): resolves true
on success, converts a `BalenaDeviceNotFound` rejection to false, and
lets every other rejection through. -/
def has (env : Env) (uuidOrId : UuidOrId) : Result Bool :=
  match get env uuidOrId { select := some (.multi ["id"]) } with
  | (.ok _, es) => (.ok true, es)
  | (.error (.deviceNotFound _), es) => (.ok false, es)
  | (.error e, es) => (.error e, es)

/-- Embedding of `exports.rename` (device.js lines 882-898): patches
`device_name` on the device selected by uuid. -/
def rename (env : Env) (uuidOrId : UuidOrId) (newName : String) : Result Unit :=
  andThen (get env uuidOrId { select := some (.single "uuid") }) fun d =>
    (.ok (), [.pinePatch "device" (.uuidEq d.uuid) (.deviceName newName)])

/-- Embedding of `exports.remove` (device.js lines 807-820): deletes the
`device` resource selected by uuid. -/
def remove (env : Env) (uuidOrId : UuidOrId) : Result Unit :=
  andThen (get env uuidOrId { select := some (.single "uuid") }) fun d =>
    (.ok (), [.pineDelete "device" (.uuidEq d.uuid)])

end device

/-- A dynamically typed JS value, as passed for the `uuid` parameter of
`getDashboardUrl` and the coordinates of `setCustomLocation`. -/
inductive JSVal where
  | str (s : String)
  | num (n : Int)
  | null
  deriving Repr, DecidableEq

/-- The JS `String(...)` conversion on the modelled values. -/
def jsString : JSVal → String
  | .str s => s
  | .num n => toString n
  | .null => "null"

/-- The `location` argument of `setCustomLocation`. -/
structure Location where
  latitude : JSVal
  longitude : JSVal
  deriving Repr, DecidableEq

namespace device

/-- Message of the error thrown by `getDashboardUrl` on a bad uuid. -/
def uuidParamErrorMsg : String := "The uuid option should be a non empty string"

/-- Embedding of `exports.getDashboardUrl` (device.js lines 200-206):
throws unless the uuid is a non-empty string, otherwise resolves
`/devices/<uuid>/summary` against the dashboard base URL via the
external `url.resolve`. -/
def getDashboardUrl (env : Env) (uuid : JSVal) : Except SDKError String :=
  match uuid with
  | .str s =>
    if s.length = 0 then .error (.jsError uuidParamErrorMsg)
    else .ok (env.urlResolve env.dashboardUrl ("/devices/" ++ s ++ "/summary"))
  | _ => .error (.jsError uuidParamErrorMsg)

/-- Embedding of `exports.setCustomLocation` (device.js lines 964-981):
resolves the device uuid, then patches `custom_latitude` and
`custom_longitude` (stringified) on the device selected by that uuid. -/
def setCustomLocation (env : Env) (uuidOrId : UuidOrId) (location : Location) : Result Unit :=
  andThen (get env uuidOrId { select := some (.single "uuid") }) fun d =>
    (.ok (), [.pinePatch "device" (.uuidEq d.uuid)
      (.customLocation (jsString location.latitude) (jsString location.longitude))])

/-- Embedding of `exports.unsetCustomLocation` (device.js lines
1005-1013): `setCustomLocation` at the empty-string coordinates. -/
def unsetCustomLocation (env : Env) (uuidOrId : UuidOrId) : Result Unit :=
  setCustomLocation env uuidOrId { latitude := .str "", longitude := .str "" }

end device

/-- Constant `MIN_SUPERVISOR_APPS_API` of device.js (line 63). -/
def MIN_SUPERVISOR_APPS_API : String := "1.8.0-alpha.0"

/-- Constant `MIN_SUPERVISOR_MC_API` of device.js (line 65). -/
def MIN_SUPERVISOR_MC_API : String := "7.0.0"

/-- Constant `CONTAINER_ACTION_ENDPOINT_TIMEOUT` of device.js (line 71). -/
def CONTAINER_ACTION_ENDPOINT_TIMEOUT : Nat := 50000

namespace device

/-- Embedding of the internal `ensureSupervisorCompatibility` (device.js
lines 179-185): errors when `semver.lt version minVersion`. -/
def ensureSupervisorCompatibility (env : Env) (version minVersion : String) :
    Except SDKError Unit :=
  if env.semverLt version minVersion then
    .error (.incompatibleSupervisor version minVersion)
  else
    .ok ()

/-- The options `startApplication`, `stopApplication`, `startService`,
`stopService` and `restartService` pass to `exports.get`. -/
def appActionOptions : PineOptions :=
  { select := some (.multi ["id", "supervisor_version"])
    expand := some (.belongsToApplication "id") }

/-- The request built by `startApplication`. -/
def appStartRequest (env : Env) (deviceId appId : Nat) : HttpRequest :=
  { method := "POST"
    url := "/supervisor/v1/apps/" ++ toString appId ++ "/start"
    baseUrl := env.apiUrl
    body := .appAction deviceId appId
    timeout := some CONTAINER_ACTION_ENDPOINT_TIMEOUT }

/-- The request built by `stopApplication`. -/
def appStopRequest (env : Env) (deviceId appId : Nat) : HttpRequest :=
  { method := "POST"
    url := "/supervisor/v1/apps/" ++ toString appId ++ "/stop"
    baseUrl := env.apiUrl
    body := .appAction deviceId appId
    timeout := some CONTAINER_ACTION_ENDPOINT_TIMEOUT }

/-- The request built by `startService`, `stopService` and
`restartService`, with `action` one of the three endpoint suffixes. -/
def serviceActionRequest (env : Env) (deviceId appId imageId : Nat) (action : String) :
    HttpRequest :=
  { method := "POST"
    url := "/supervisor/v2/applications/" ++ toString appId ++ "/" ++ action
    baseUrl := env.apiUrl
    body := .serviceAction deviceId appId imageId
    timeout := some CONTAINER_ACTION_ENDPOINT_TIMEOUT }

/-- Embedding of `exports.startApplication` (device.js lines 1113-1138):
resolve the device, check supervisor compatibility against
`MIN_SUPERVISOR_APPS_API`, then POST to the v1 apps start endpoint.
Reading `belongs_to__application[0]` of an empty expansion is the JS
TypeError.  The `containerId` projection of the JSON response body is
outside the model; the body is returned opaque. -/
def startApplication (env : Env) (uuidOrId : UuidOrId) : Result String :=
  andThen (get env uuidOrId appActionOptions) fun d =>
    match ensureSupervisorCompatibility env d.supervisor_version MIN_SUPERVISOR_APPS_API with
    | .error e => (.error e, [])
    | .ok () =>
      match d.belongs_to__application with
      | [] => (.error .jsTypeError, [])
      | appId :: _ =>
        let req := appStartRequest env d.id appId
        match env.respond req with
        | .ok r => (.ok r.body, [.httpRequest req])
        | .error e => (.error (.requestError e), [.httpRequest req])

/-- Embedding of `exports.stopApplication` (device.js lines 1171-1196):
as `startApplication` with the v1 apps stop endpoint. -/
def stopApplication (env : Env) (uuidOrId : UuidOrId) : Result String :=
  andThen (get env uuidOrId appActionOptions) fun d =>
    match ensureSupervisorCompatibility env d.supervisor_version MIN_SUPERVISOR_APPS_API with
    | .error e => (.error e, [])
    | .ok () =>
      match d.belongs_to__application with
      | [] => (.error .jsTypeError, [])
      | appId :: _ =>
        let req := appStopRequest env d.id appId
        match env.respond req with
        | .ok r => (.ok r.body, [.httpRequest req])
        | .error e => (.error (.requestError e), [.httpRequest req])

/-- Embedding of `exports.startService` (device.js lines 1265-1292):
resolve the device, check compatibility against
`MIN_SUPERVISOR_MC_API`, then POST to the v2 start-service endpoint. -/
def startService (env : Env) (uuidOrId : UuidOrId) (imageId : Nat) : Result String :=
  andThen (get env uuidOrId appActionOptions) fun d =>
    match ensureSupervisorCompatibility env d.supervisor_version MIN_SUPERVISOR_MC_API with
    | .error e => (.error e, [])
    | .ok () =>
      match d.belongs_to__application with
      | [] => (.error .jsTypeError, [])
      | appId :: _ =>
        let req := serviceActionRequest env d.id appId imageId "start-service"
        match env.respond req with
        | .ok r => (.ok r.body, [.httpRequest req])
        | .error e => (.error (.requestError e), [.httpRequest req])

/-- Embedding of `exports.stopService` (device.js lines 1321-1348). -/
def stopService (env : Env) (uuidOrId : UuidOrId) (imageId : Nat) : Result String :=
  andThen (get env uuidOrId appActionOptions) fun d =>
    match ensureSupervisorCompatibility env d.supervisor_version MIN_SUPERVISOR_MC_API with
    | .error e => (.error e, [])
    | .ok () =>
      match d.belongs_to__application with
      | [] => (.error .jsTypeError, [])
      | appId :: _ =>
        let req := serviceActionRequest env d.id appId imageId "stop-service"
        match env.respond req with
        | .ok r => (.ok r.body, [.httpRequest req])
        | .error e => (.error (.requestError e), [.httpRequest req])

/-- Embedding of `exports.restartService` (device.js lines 1377-1404). -/
def restartService (env : Env) (uuidOrId : UuidOrId) (imageId : Nat) : Result String :=
  andThen (get env uuidOrId appActionOptions) fun d =>
    match ensureSupervisorCompatibility env d.supervisor_version MIN_SUPERVISOR_MC_API with
    | .error e => (.error e, [])
    | .ok () =>
      match d.belongs_to__application with
      | [] => (.error .jsTypeError, [])
      | appId :: _ =>
        let req := serviceActionRequest env d.id appId imageId "restart-service"
        match env.respond req with
        | .ok r => (.ok r.body, [.httpRequest req])
        | .error e => (.error (.requestError e), [.httpRequest req])

end device

/-- The optional `options` argument of `reboot`. -/
structure RebootOptions where
  force : Option Bool := none
  deriving Repr, DecidableEq

/-- JS `Boolean(options?.force)`: false unless `options.force` is
truthy. -/
def rebootForce : Option RebootOptions → Bool
  | none => false
  | some o => o.force.getD false

namespace device

/-- The request built by `reboot`: POST `/supervisor/v1/reboot` with
body `deviceId` and `data.force`, and no explicit timeout. -/
def rebootRequest (env : Env) (deviceId : Nat) (force : Bool) : HttpRequest :=
  { method := "POST"
    url := "/supervisor/v1/reboot"
    baseUrl := env.apiUrl
    body := .reboot deviceId force
    timeout := none }

/-- Embedding of `exports.reboot` (device.js lines 1429-1460): resolve
the device id via `getId`, POST the reboot request, convert a locked
HTTP status to `BalenaSupervisorLockedError`, and convert a not-found
HTTP response to `BalenaDeviceNotFound` (the outer
`.catch(isNotFoundResponse, treatAsMissingDevice(uuidOrId))`); every
other request error propagates unchanged. -/
def reboot (env : Env) (uuidOrId : UuidOrId) (options : Option RebootOptions) : Result String :=
  let force := rebootForce options
  andThen (getId env uuidOrId) fun deviceId =>
    let req := rebootRequest env deviceId force
    match env.respond req with
    | .ok r => (.ok r.body, [.httpRequest req])
    | .error e =>
      if e.statusCode == LOCKED_STATUS_CODE then
        (.error .supervisorLocked, [.httpRequest req])
      else if isNotFoundResponse e then
        (.error (.deviceNotFound uuidOrId), [.httpRequest req])
      else
        (.error (.requestError e), [.httpRequest req])

/-- Embedding of `exports.grantSupportAccess` (device.js lines
2484-2502): throws `BalenaInvalidParameterError` when the expiry
timestamp is null or not after `Date.now()`, before resolving the
device; otherwise patches `is_accessible_by_support_until__date` by
device id. -/
def grantSupportAccess (env : Env) (uuidOrId : UuidOrId) (expiryTimestamp : Option Int) :
    Result Unit :=
  match expiryTimestamp with
  | none => (.error (.invalidParameter "expiryTimestamp" none), [])
  | some t =>
    if t ≤ env.now then (.error (.invalidParameter "expiryTimestamp" (some t)), [])
    else
      andThen (get env uuidOrId { select := some (.single "id") }) fun d =>
        (.ok (), [.pinePatchById "device" d.id (.supportUntil (some t))])

/-- Embedding of `exports.revokeSupportAccess` (device.js lines
2525-2535): patches `is_accessible_by_support_until__date` to null by
device id, with no timestamp validation. -/
def revokeSupportAccess (env : Env) (uuidOrId : UuidOrId) : Result Unit :=
  andThen (get env uuidOrId { select := some (.single "id") }) fun d =>
    (.ok (), [.pinePatchById "device" d.id (.supportUntil none)])

end device

namespace device.serviceVar

/-- Embedding of `exports.serviceVar.get` (device.js lines 3684-3714):
resolve the parent device id, query
`device_service_environment_variable` filtered by that device, the
service and the variable name, then take element 0 and project `value`
(undefined, i.e. none, when no record matches). -/
def get (env : Env) (uuidOrId : UuidOrId) (serviceId : Nat) (key : String) :
    Result (Option String) :=
  andThen (device.get env uuidOrId { select := some (.single "id") }) fun d =>
    let f : ServiceVarFilter := { device := d.id, service := serviceId, name := key }
    ((.ok (((pineGetServiceVars env.serviceVars f).head?).map (fun v => v.value))),
     [.pineGetServiceVars "device_service_environment_variable" f])

end device.serviceVar

instance {e a : Type} [DecidableEq e] [DecidableEq a] : DecidableEq (Except e a) := fun x y =>
  match x, y with
  | .ok u, .ok v =>
    if h : u = v then .isTrue (by rw [h]) else .isFalse (by intro hc; cases hc; exact h rfl)
  | .error u, .error v =>
    if h : u = v then .isTrue (by rw [h]) else .isFalse (by intro hc; cases hc; exact h rfl)
  | .ok _, .error _ => .isFalse (by intro hc; cases hc)
  | .error _, .ok _ => .isFalse (by intro hc; cases hc)

/-- All effects issued by `device.get` are pine queries, never requests
through the HTTP layer. -/
theorem get_effects_no_http (env : Env) (u : UuidOrId) (opts : PineOptions) :
    ∀ e ∈ (device.get env u opts).2, e.isHttpRequest = false := by
  cases u with
  | null => simp [device.get]
  | id n =>
    cases h : pineGetDeviceById env.devices n <;>
      simp [device.get, h, Effect.isHttpRequest]
  | uuid s =>
    rcases h : pineGetDevices env.devices
        (mergePineOptions { filter := some (.uuidStartsWith s) } opts) with _ | ⟨d, _ | ⟨d2, tl⟩⟩ <;>
      simp [device.get, h, Effect.isHttpRequest]

/-- All effects issued by `getId` are pine queries, never requests
through the HTTP layer. -/
theorem getId_effects_no_http (env : Env) (u : UuidOrId) :
    ∀ e ∈ (device.getId env u).2, e.isHttpRequest = false := by
  have h := get_effects_no_http env u { select := some (.single "id") }
  cases u with
  | id n => simp [device.getId]
  | uuid s =>
    rcases hg : device.get env (.uuid s) { select := some (.single "id") } with ⟨r, es⟩
    rw [hg] at h
    cases r <;> simp_all [device.getId, andThen, hg]
  | null =>
    rcases hg : device.get env .null { select := some (.single "id") } with ⟨r, es⟩
    rw [hg] at h
    cases r <;> simp_all [device.getId, andThen, hg]

/-- A sample device used by the concrete witnesses. -/
def d1 : Device :=
  { id := 1, uuid := "abc123", device_name := "one", is_online := true
    supervisor_version := "6.1.0", belongs_to__application := [10] }

/-- A second sample device sharing the uuid prefix "ab" with `d1`. -/
def d2 : Device :=
  { id := 2, uuid := "abd999", device_name := "two", is_online := false
    supervisor_version := "0.5.0", belongs_to__application := [10] }

/-- A concrete stand-in for the external `semver.lt`, agreeing with it on
the versions appearing in the witnesses: "0.5.0" precedes both minimum
versions and "6.1.0" precedes only "7.0.0". -/
def semverLt0 : String → String → Bool := fun v m =>
  v == "0.5.0" || (v == "6.1.0" && m == "7.0.0")

/-- A concrete environment for the witnesses. -/
def env0 : Env :=
  { devices := [d1, d2]
    serviceVars := [⟨1, 5, "VAR", "v1"⟩]
    semverLt := semverLt0
    respond := fun _ => .ok { body := "OK" }
    now := 1000
    apiUrl := "https://api.example.test"
    dashboardUrl := "https://dashboard.example.test"
    urlResolve := fun base path => base ++ path }

/-- The environment `env0` with an HTTP layer that fails every request
with a 404 Not Found response. -/
def env404 : Env :=
  { env0 with respond := fun _ => .error { statusCode := 404, body := "Not Found" } }

/-- Claim C10: `device.get` rejects with `BalenaDeviceNotFound` whenever
`uuidOrId` is null or undefined, before issuing any query to the
backend, and the operations resolving their device through it (here
`getName`, `isOnline`, `rename`, `remove`) likewise reject with
`BalenaDeviceNotFound` on a null identifier without issuing any
effect. -/
theorem device_get_null_rejects_without_queries (env : Env) (opts : PineOptions)
    (newName : String) :
    device.get env .null opts = (.error (.deviceNotFound .null), [])
    ∧ device.getName env .null = (.error (.deviceNotFound .null), [])
    ∧ device.isOnline env .null = (.error (.deviceNotFound .null), [])
    ∧ device.rename env .null newName = (.error (.deviceNotFound .null), [])
    ∧ device.remove env .null = (.error (.deviceNotFound .null), []) :=
  ⟨rfl, rfl, rfl, rfl, rfl⟩

/-- Claim C2: `device.getAll` forwards the caller pine options to a pine
get on the `device` resource merged with the default
`$orderby: device_name asc`: caller-supplied `$select`, `$filter` and
`$expand` pass through, a caller `$orderby` overrides the default, and
with no caller options the request carries exactly the default
ordering. -/
theorem device_getAll_merges_default_orderby (env : Env) (opts : PineOptions) :
    (device.getAll env opts).2 = [Effect.pineGet "device"
      { select := opts.select
        filter := opts.filter
        expand := opts.expand
        orderby := match opts.orderby with | some o => some o | none => some "device_name asc" }]
    ∧ (device.getAll env {}).2 =
        [Effect.pineGet "device" { orderby := some "device_name asc" }] := by
  constructor
  · obtain ⟨sel, fil, ex, ord⟩ := opts
    cases sel <;> cases fil <;> cases ex <;> cases ord <;> rfl
  · rfl

/-- Claim C5: `getDashboardUrl` throws unless the uuid is a non-empty
string, and on a non-empty string returns the dashboard base URL
resolved against `/devices/<uuid>/summary`. -/
theorem getDashboardUrl_spec (env : Env) :
    (∀ s : String, s ≠ "" →
      device.getDashboardUrl env (.str s)
        = .ok (env.urlResolve env.dashboardUrl ("/devices/" ++ s ++ "/summary")))
    ∧ device.getDashboardUrl env (.str "") = .error (.jsError device.uuidParamErrorMsg)
    ∧ (∀ n : Int, device.getDashboardUrl env (.num n) = .error (.jsError device.uuidParamErrorMsg))
    ∧ device.getDashboardUrl env .null = .error (.jsError device.uuidParamErrorMsg) := by
  refine ⟨?_, rfl, fun n => rfl, rfl⟩
  intro s hs
  have hl : s.length ≠ 0 := fun h => hs (String.ext (List.length_eq_zero.mp h))
  simp [device.getDashboardUrl, hl]

/-- Witness for claim C5 at the concrete environment `env0` and uuid
"a44b". -/
theorem getDashboardUrl_spec_witness :
    ("a44b" : String) ≠ ""
    ∧ device.getDashboardUrl env0 (.str "a44b")
        = .ok (env0.urlResolve env0.dashboardUrl ("/devices/" ++ "a44b" ++ "/summary")) := by
  refine ⟨by decide, ?_⟩
  exact (getDashboardUrl_spec env0).1 "a44b" (by decide)

/-- Claim C8: `device.has` resolves true when `device.get` resolves,
resolves false exactly when it rejects with `BalenaDeviceNotFound`, and
propagates any other rejection (such as `BalenaAmbiguousDevice`)
unchanged. -/
theorem device_has_maps_notfound_to_false (env : Env) (u : UuidOrId) :
    (∀ d es, device.get env u { select := some (.multi ["id"]) } = (.ok d, es) →
      device.has env u = (.ok true, es))
    ∧ (∀ w es, device.get env u { select := some (.multi ["id"]) }
          = (.error (.deviceNotFound w), es) →
      device.has env u = (.ok false, es))
    ∧ (∀ e es, device.get env u { select := some (.multi ["id"]) } = (.error e, es) →
      (∀ w, e ≠ .deviceNotFound w) → device.has env u = (.error e, es)) := by
  refine ⟨?_, ?_, ?_⟩
  · intro d es h; simp [device.has, h]
  · intro w es h; simp [device.has, h]
  · intro e es h hne
    cases e <;> first
      | exact absurd rfl (hne _)
      | simp [device.has, h]

/-- Witness for claim C8 at the concrete environment `env0`: an
unmatched uuid maps to false and an ambiguous prefix propagates
`BalenaAmbiguousDevice`. -/
theorem device_has_maps_notfound_to_false_witness :
    device.get env0 (.uuid "zz") { select := some (.multi ["id"]) }
      = (.error (.deviceNotFound (.uuid "zz")),
         [Effect.pineGet "device"
           { select := some (.multi ["id"]), filter := some (.uuidStartsWith "zz") }])
    ∧ device.has env0 (.uuid "zz")
      = (.ok false,
         [Effect.pineGet "device"
           { select := some (.multi ["id"]), filter := some (.uuidStartsWith "zz") }])
    ∧ (∀ w, SDKError.ambiguousDevice (.uuid "ab") ≠ .deviceNotFound w)
    ∧ device.has env0 (.uuid "ab")
      = (.error (.ambiguousDevice (.uuid "ab")),
         [Effect.pineGet "device"
           { select := some (.multi ["id"]), filter := some (.uuidStartsWith "ab") }]) := by
  refine ⟨by decide, ?_, ?_, ?_⟩
  · exact (device_has_maps_notfound_to_false env0 (.uuid "zz")).2.1 (.uuid "zz")
      [Effect.pineGet "device"
        { select := some (.multi ["id"]), filter := some (.uuidStartsWith "zz") }] (by decide)
  · exact fun w h => SDKError.noConfusion h
  · exact (device_has_maps_notfound_to_false env0 (.uuid "ab")).2.2 (.ambiguousDevice (.uuid "ab"))
      [Effect.pineGet "device"
        { select := some (.multi ["id"]), filter := some (.uuidStartsWith "ab") }] (by decide)
      (fun w h => SDKError.noConfusion h)

/-- Claim C9: `unsetCustomLocation` is exactly `setCustomLocation` at
the empty-string coordinates, and the single patch either issues sets
only `custom_latitude` and `custom_longitude` (to empty strings) on the
device selected by uuid. -/
theorem unsetCustomLocation_is_set_empty (env : Env) (u : UuidOrId) :
    device.unsetCustomLocation env u
      = device.setCustomLocation env u { latitude := .str "", longitude := .str "" }
    ∧ (∀ d es, device.get env u { select := some (.single "uuid") } = (.ok d, es) →
        device.unsetCustomLocation env u
          = (.ok (), es ++ [.pinePatch "device" (.uuidEq d.uuid) (.customLocation "" "")])) := by
  refine ⟨rfl, ?_⟩
  intro d es h
  simp [device.unsetCustomLocation, device.setCustomLocation, andThen, h, jsString]

/-- Witness for claim C9 at the concrete environment `env0` and device
id 1. -/
theorem unsetCustomLocation_is_set_empty_witness :
    device.get env0 (.id 1) { select := some (.single "uuid") }
      = (.ok d1, [Effect.pineGetById "device" 1 { select := some (.single "uuid") }])
    ∧ device.unsetCustomLocation env0 (.id 1)
      = (.ok (), [Effect.pineGetById "device" 1 { select := some (.single "uuid") },
                  .pinePatch "device" (.uuidEq "abc123") (.customLocation "" "")]) := by
  refine ⟨by decide, ?_⟩
  have h := (unsetCustomLocation_is_set_empty env0 (.id 1)).2 d1
      [Effect.pineGetById "device" 1 { select := some (.single "uuid") }] (by decide)
  simpa [d1] using h

/-- Claim C1: `device.get` disambiguates the identifier.  A numeric id
queries the `device` resource by that id, rejecting with
`BalenaDeviceNotFound` when no device is returned.  A uuid string
queries with a `$filter` matching the devices whose uuid starts with
the string, rejecting with `BalenaDeviceNotFound` on zero matches, with
`BalenaAmbiguousDevice` on more than one match, and resolving with the
single matching device otherwise. -/
theorem device_get_disambiguates (env : Env) (n : Nat) (s : String) (opts : PineOptions)
    (hf : opts.filter = none) :
    (device.get env (.id n) opts =
      (match env.devices.find? (fun d => d.id == n) with
       | some d => (.ok d, [Effect.pineGetById "device" n opts])
       | none => (.error (.deviceNotFound (.id n)), [Effect.pineGetById "device" n opts])))
    ∧ (device.get env (.uuid s) opts).2 =
        [Effect.pineGet "device" (mergePineOptions { filter := some (.uuidStartsWith s) } opts)]
    ∧ (mergePineOptions { filter := some (.uuidStartsWith s) } opts).filter
        = some (.uuidStartsWith s)
    ∧ (∀ ds, env.devices.filter (fun d => strIsPrefixOf s d.uuid) = ds →
        ((ds = [] → (device.get env (.uuid s) opts).1 = .error (.deviceNotFound (.uuid s)))
         ∧ (∀ d, ds = [d] → (device.get env (.uuid s) opts).1 = .ok d)
         ∧ (1 < ds.length →
             (device.get env (.uuid s) opts).1 = .error (.ambiguousDevice (.uuid s))))) := by
  have hmf : (mergePineOptions { filter := some (.uuidStartsWith s) } opts).filter
      = some (.uuidStartsWith s) := by
    simp [mergePineOptions, hf]
  have hpg : pineGetDevices env.devices (mergePineOptions { filter := some (.uuidStartsWith s) } opts)
      = env.devices.filter (fun d => strIsPrefixOf s d.uuid) := by
    simp [pineGetDevices, hmf, evalDeviceFilter]
  refine ⟨?_, ?_, hmf, ?_⟩
  · cases h : env.devices.find? (fun d => d.id == n) <;>
      simp [device.get, pineGetDeviceById, h, device.addExtraInfo]
  · rcases h : pineGetDevices env.devices
        (mergePineOptions { filter := some (.uuidStartsWith s) } opts) with _ | ⟨d, _ | ⟨e, tl⟩⟩ <;>
      simp [device.get, h]
  · intro ds hds
    have hq : pineGetDevices env.devices
        (mergePineOptions { filter := some (.uuidStartsWith s) } opts) = ds := hpg.trans hds
    refine ⟨?_, ?_, ?_⟩
    · intro h0
      rw [h0] at hq
      simp [device.get, hq]
    · intro d h1
      rw [h1] at hq
      simp [device.get, hq, device.addExtraInfo]
    · intro hlen
      rcases ds with _ | ⟨a, _ | ⟨b, tl⟩⟩
      · simp at hlen
      · simp at hlen
      · simp [device.get, hq]

/-- Witness for claim C1 at the concrete environment `env0`: id 1
resolves, the prefix "ab" matches two devices and is ambiguous, the
prefix "abc" matches exactly `d1`, and "zz" matches none. -/
theorem device_get_disambiguates_witness :
    (({} : PineOptions).filter = none)
    ∧ env0.devices.filter (fun d => strIsPrefixOf "ab" d.uuid) = [d1, d2]
    ∧ (device.get env0 (.uuid "ab") {}).1 = .error (.ambiguousDevice (.uuid "ab"))
    ∧ env0.devices.filter (fun d => strIsPrefixOf "zz" d.uuid) = []
    ∧ (device.get env0 (.uuid "zz") {}).1 = .error (.deviceNotFound (.uuid "zz")) := by
  refine ⟨rfl, by decide, ?_, by decide, ?_⟩
  · exact ((device_get_disambiguates env0 1 "ab" {} rfl).2.2.2 [d1, d2] (by decide)).2.2 (by decide)
  · exact ((device_get_disambiguates env0 1 "zz" {} rfl).2.2.2 [] (by decide)).1 rfl

/-- Claim C6: `serviceVar.get` resolves the parent device id and
queries `device_service_environment_variable` filtered by that device
id, the given service id and the variable name, resolving with the
value of the single matching record, or with undefined (none) when no
record matches: the dependent resource is scoped to the parent device
instance. -/
theorem serviceVar_get_scoped (env : Env) (u : UuidOrId) (serviceId : Nat) (key : String)
    (d : Device) (es : List Effect)
    (hget : device.get env u { select := some (.single "id") } = (.ok d, es)) :
    (device.serviceVar.get env u serviceId key).2
      = es ++ [.pineGetServiceVars "device_service_environment_variable"
          { device := d.id, service := serviceId, name := key }]
    ∧ (env.serviceVars.filter
          (fun v => v.device == d.id && v.service == serviceId && v.name == key) = [] →
        (device.serviceVar.get env u serviceId key).1 = .ok none)
    ∧ (∀ w, env.serviceVars.filter
          (fun v => v.device == d.id && v.service == serviceId && v.name == key) = [w] →
        (device.serviceVar.get env u serviceId key).1 = .ok (some w.value)) := by
  refine ⟨?_, ?_, ?_⟩
  · simp [device.serviceVar.get, andThen, hget]
  · intro h0
    simp [device.serviceVar.get, andThen, hget, pineGetServiceVars, h0]
  · intro w h1
    simp [device.serviceVar.get, andThen, hget, pineGetServiceVars, h1]

/-- Witness for claim C6 at the concrete environment `env0`: on device
id 1 and service 5, the variable VAR resolves to its value v1 and an
absent name resolves to none. -/
theorem serviceVar_get_scoped_witness :
    device.get env0 (.id 1) { select := some (.single "id") }
      = (.ok d1, [Effect.pineGetById "device" 1 { select := some (.single "id") }])
    ∧ env0.serviceVars.filter
        (fun v => v.device == d1.id && v.service == 5 && v.name == "VAR")
        = [⟨1, 5, "VAR", "v1"⟩]
    ∧ (device.serviceVar.get env0 (.id 1) 5 "VAR").1 = .ok (some "v1")
    ∧ env0.serviceVars.filter
        (fun v => v.device == d1.id && v.service == 5 && v.name == "NOPE") = []
    ∧ (device.serviceVar.get env0 (.id 1) 5 "NOPE").1 = .ok none := by
  refine ⟨by decide, by decide, ?_, by decide, ?_⟩
  · exact (serviceVar_get_scoped env0 (.id 1) 5 "VAR" d1
      [Effect.pineGetById "device" 1 { select := some (.single "id") }]
      (by decide)).2.2 ⟨1, 5, "VAR", "v1"⟩ (by decide)
  · exact (serviceVar_get_scoped env0 (.id 1) 5 "NOPE" d1
      [Effect.pineGetById "device" 1 { select := some (.single "id") }]
      (by decide)).2.1 (by decide)

/-- Claim C7: `grantSupportAccess` rejects with
`BalenaInvalidParameterError`, before issuing any effect, when the
expiry timestamp is null or not strictly greater than the current time;
only when the validation passes does it patch
`is_accessible_by_support_until__date` to the timestamp, and
`revokeSupportAccess` patches the same field to null with no timestamp
validation. -/
theorem grantSupportAccess_validation (env : Env) (u : UuidOrId) :
    device.grantSupportAccess env u none
      = (.error (.invalidParameter "expiryTimestamp" none), [])
    ∧ (∀ t : Int, t ≤ env.now →
        device.grantSupportAccess env u (some t)
          = (.error (.invalidParameter "expiryTimestamp" (some t)), []))
    ∧ (∀ t : Int, env.now < t → ∀ d es,
        device.get env u { select := some (.single "id") } = (.ok d, es) →
        device.grantSupportAccess env u (some t)
          = (.ok (), es ++ [.pinePatchById "device" d.id (.supportUntil (some t))]))
    ∧ (∀ d es, device.get env u { select := some (.single "id") } = (.ok d, es) →
        device.revokeSupportAccess env u
          = (.ok (), es ++ [.pinePatchById "device" d.id (.supportUntil none)])) := by
  refine ⟨rfl, ?_, ?_, ?_⟩
  · intro t ht
    simp [device.grantSupportAccess, ht]
  · intro t ht d es hget
    have hnle : ¬ t ≤ env.now := not_le.mpr ht
    simp [device.grantSupportAccess, hnle, andThen, hget]
  · intro d es hget
    simp [device.revokeSupportAccess, andThen, hget]

/-- Witness for claim C7 at the concrete environment `env0` (whose
current time is 1000): timestamp 5 is rejected without effects and
timestamp 2000 leads to the patch. -/
theorem grantSupportAccess_validation_witness :
    ((5 : Int) ≤ env0.now)
    ∧ device.grantSupportAccess env0 (.id 1) (some 5)
        = (.error (.invalidParameter "expiryTimestamp" (some 5)), [])
    ∧ (env0.now < (2000 : Int))
    ∧ device.grantSupportAccess env0 (.id 1) (some 2000)
        = (.ok (), [Effect.pineGetById "device" 1 { select := some (.single "id") },
                    .pinePatchById "device" 1 (.supportUntil (some 2000))])
    ∧ device.revokeSupportAccess env0 (.id 1)
        = (.ok (), [Effect.pineGetById "device" 1 { select := some (.single "id") },
                    .pinePatchById "device" 1 (.supportUntil none)]) := by
  have h := grantSupportAccess_validation env0 (.id 1)
  refine ⟨by decide, h.2.1 5 (by decide), by decide, ?_, ?_⟩
  · have h2 := h.2.2.1 2000 (by decide) d1
      [Effect.pineGetById "device" 1 { select := some (.single "id") }] (by decide)
    simpa [d1] using h2
  · have h3 := h.2.2.2 d1
      [Effect.pineGetById "device" 1 { select := some (.single "id") }] (by decide)
    simpa [d1] using h3

/-- Claim C4: `startApplication` and `stopApplication` reject with the
incompatible-supervisor error when the supervisor version is
semver-less-than 1.8.0-alpha.0, and `startService`, `stopService` and
`restartService` reject when it is semver-less-than 7.0.0; the
supervisor HTTP request is issued only when the version check passes
(the effects of a rejected call contain no HTTP request). -/
theorem supervisor_version_gating (env : Env) (u : UuidOrId) (imageId : Nat)
    (d : Device) (es : List Effect)
    (hget : device.get env u device.appActionOptions = (.ok d, es)) :
    (∀ e ∈ es, e.isHttpRequest = false)
    ∧ (env.semverLt d.supervisor_version MIN_SUPERVISOR_APPS_API = true →
        device.startApplication env u
          = (.error (.incompatibleSupervisor d.supervisor_version MIN_SUPERVISOR_APPS_API), es)
        ∧ device.stopApplication env u
          = (.error (.incompatibleSupervisor d.supervisor_version MIN_SUPERVISOR_APPS_API), es))
    ∧ (env.semverLt d.supervisor_version MIN_SUPERVISOR_MC_API = true →
        device.startService env u imageId
          = (.error (.incompatibleSupervisor d.supervisor_version MIN_SUPERVISOR_MC_API), es)
        ∧ device.stopService env u imageId
          = (.error (.incompatibleSupervisor d.supervisor_version MIN_SUPERVISOR_MC_API), es)
        ∧ device.restartService env u imageId
          = (.error (.incompatibleSupervisor d.supervisor_version MIN_SUPERVISOR_MC_API), es))
    ∧ (∀ appId apps, d.belongs_to__application = appId :: apps →
        (env.semverLt d.supervisor_version MIN_SUPERVISOR_APPS_API = false →
          (device.startApplication env u).2
            = es ++ [.httpRequest (device.appStartRequest env d.id appId)]
          ∧ (device.stopApplication env u).2
            = es ++ [.httpRequest (device.appStopRequest env d.id appId)])
        ∧ (env.semverLt d.supervisor_version MIN_SUPERVISOR_MC_API = false →
          (device.startService env u imageId).2
            = es ++ [.httpRequest (device.serviceActionRequest env d.id appId imageId
                "start-service")]
          ∧ (device.stopService env u imageId).2
            = es ++ [.httpRequest (device.serviceActionRequest env d.id appId imageId
                "stop-service")]
          ∧ (device.restartService env u imageId).2
            = es ++ [.httpRequest (device.serviceActionRequest env d.id appId imageId
                "restart-service")])) := by
  refine ⟨?_, ?_, ?_, ?_⟩
  · have h := get_effects_no_http env u device.appActionOptions
    rw [hget] at h
    simpa using h
  · intro hlt
    constructor <;>
      simp [device.startApplication, device.stopApplication, andThen, hget,
        device.ensureSupervisorCompatibility, hlt]
  · intro hlt
    refine ⟨?_, ?_, ?_⟩ <;>
      simp [device.startService, device.stopService, device.restartService, andThen, hget,
        device.ensureSupervisorCompatibility, hlt]
  · intro appId apps happ
    constructor
    · intro hge
      constructor
      · cases hr : env.respond (device.appStartRequest env d.id appId) <;>
          simp [device.startApplication, andThen, hget,
            device.ensureSupervisorCompatibility, hge, happ, hr]
      · cases hr : env.respond (device.appStopRequest env d.id appId) <;>
          simp [device.stopApplication, andThen, hget,
            device.ensureSupervisorCompatibility, hge, happ, hr]
    · intro hge
      refine ⟨?_, ?_, ?_⟩
      · cases hr : env.respond (device.serviceActionRequest env d.id appId imageId
            "start-service") <;>
          simp [device.startService, andThen, hget,
            device.ensureSupervisorCompatibility, hge, happ, hr]
      · cases hr : env.respond (device.serviceActionRequest env d.id appId imageId
            "stop-service") <;>
          simp [device.stopService, andThen, hget,
            device.ensureSupervisorCompatibility, hge, happ, hr]
      · cases hr : env.respond (device.serviceActionRequest env d.id appId imageId
            "restart-service") <;>
          simp [device.restartService, andThen, hget,
            device.ensureSupervisorCompatibility, hge, happ, hr]

/-- Witness for claim C4 at the concrete environment `env0` and device
`d1` (supervisor version 6.1.0, below 7.0.0 but not below
1.8.0-alpha.0 for the modelled comparator): `startService` rejects
while `startApplication` issues its HTTP request. -/
theorem supervisor_version_gating_witness :
    device.get env0 (.id 1) device.appActionOptions
      = (.ok d1, [Effect.pineGetById "device" 1 device.appActionOptions])
    ∧ env0.semverLt d1.supervisor_version MIN_SUPERVISOR_MC_API = true
    ∧ device.startService env0 (.id 1) 9
        = (.error (.incompatibleSupervisor "6.1.0" MIN_SUPERVISOR_MC_API),
           [Effect.pineGetById "device" 1 device.appActionOptions])
    ∧ env0.semverLt d1.supervisor_version MIN_SUPERVISOR_APPS_API = false
    ∧ (device.startApplication env0 (.id 1)).2
        = [Effect.pineGetById "device" 1 device.appActionOptions,
           .httpRequest (device.appStartRequest env0 1 10)] := by
  have h := supervisor_version_gating env0 (.id 1) 9 d1
      [Effect.pineGetById "device" 1 device.appActionOptions] (by decide)
  refine ⟨by decide, by decide, ?_, by decide, ?_⟩
  · have h2 := (h.2.2.1 (by decide)).1
    simpa [d1] using h2
  · have h3 := ((h.2.2.2 10 [] (by decide)).1 (by decide)).1
    simpa [d1] using h3

/-- Counterexample to claim C3 as stated: in the environment `env404`,
whose HTTP layer fails every request with status 404 and body Not
Found, `reboot` of device id 7 does not re-throw that request error
unchanged (and the status is not the locked status code): the rejection
is `BalenaDeviceNotFound`, the conversion applied by the outer
`.catch(isNotFoundResponse, treatAsMissingDevice(uuidOrId))` of
device.js line 1458. -/
theorem reboot_notfound_counterexample :
    env404.respond (device.rebootRequest env404 7 false)
      = .error { statusCode := 404, body := "Not Found" }
    ∧ (404 : Nat) ≠ LOCKED_STATUS_CODE
    ∧ (device.reboot env404 (.id 7) none).1 = .error (.deviceNotFound (.id 7))
    ∧ (device.reboot env404 (.id 7) none).1
        ≠ .error (.requestError { statusCode := 404, body := "Not Found" })
    ∧ (device.reboot env404 (.id 7) none).1 ≠ .error .supervisorLocked := by
  refine ⟨rfl, by decide, by decide, by decide, by decide⟩

/-- Claim C3 as amended: `reboot` issues exactly one HTTP request, a
POST to `/supervisor/v1/reboot` with body `deviceId` and `data.force`
(force false unless `options.force` is truthy); it rejects with
`BalenaSupervisorLockedError` exactly when that request fails with the
locked status code, it converts a not-found HTTP response to
`BalenaDeviceNotFound`, and it re-throws every other request error
unchanged. -/
theorem reboot_request_and_errors (env : Env) (u : UuidOrId) (options : Option RebootOptions)
    (did : Nat) (es : List Effect) (hid : device.getId env u = (.ok did, es)) :
    (device.reboot env u options).2
      = es ++ [.httpRequest (device.rebootRequest env did (rebootForce options))]
    ∧ (∀ e ∈ es, e.isHttpRequest = false)
    ∧ rebootForce none = false
    ∧ (∀ b, rebootForce (some { force := some b }) = b)
    ∧ (∀ r, env.respond (device.rebootRequest env did (rebootForce options)) = .ok r →
        (device.reboot env u options).1 = .ok r.body)
    ∧ (∀ e, env.respond (device.rebootRequest env did (rebootForce options)) = .error e →
        ((e.statusCode = LOCKED_STATUS_CODE →
           (device.reboot env u options).1 = .error .supervisorLocked)
         ∧ (e.statusCode ≠ LOCKED_STATUS_CODE → isNotFoundResponse e = true →
           (device.reboot env u options).1 = .error (.deviceNotFound u))
         ∧ (e.statusCode ≠ LOCKED_STATUS_CODE → isNotFoundResponse e = false →
           (device.reboot env u options).1 = .error (.requestError e))))
    ∧ ((device.reboot env u options).1 = .error .supervisorLocked ↔
        ∃ e, env.respond (device.rebootRequest env did (rebootForce options)) = .error e
             ∧ e.statusCode = LOCKED_STATUS_CODE) := by
  have hnh := getId_effects_no_http env u
  rw [hid] at hnh
  simp only [] at hnh
  refine ⟨?_, by simpa using hnh, rfl, fun b => rfl, ?_, ?_, ?_⟩
  · cases hr : env.respond (device.rebootRequest env did (rebootForce options)) with
    | ok r => simp [device.reboot, andThen, hid, hr]
    | error e =>
      by_cases hl : e.statusCode = LOCKED_STATUS_CODE
      · simp [device.reboot, andThen, hid, hr, hl]
      · by_cases hn : isNotFoundResponse e
        · simp [device.reboot, andThen, hid, hr, hl, hn]
        · simp [device.reboot, andThen, hid, hr, hl, hn]
  · intro r hr
    simp [device.reboot, andThen, hid, hr]
  · intro e hr
    refine ⟨?_, ?_, ?_⟩
    · intro hl
      simp [device.reboot, andThen, hid, hr, hl]
    · intro hl hn
      simp [device.reboot, andThen, hid, hr, hl, hn]
    · intro hl hn
      simp [device.reboot, andThen, hid, hr, hl, hn]
  · cases hr : env.respond (device.rebootRequest env did (rebootForce options)) with
    | ok r =>
      simp [device.reboot, andThen, hid, hr]
    | error e =>
      by_cases hl : e.statusCode = LOCKED_STATUS_CODE
      · simp [device.reboot, andThen, hid, hr, hl]
      · by_cases hn : isNotFoundResponse e
        · simp [device.reboot, andThen, hid, hr, hl, hn]
        · simp [device.reboot, andThen, hid, hr, hl, hn]

/-- Witness for the amended claim C3 at the concrete environments: in
`env0` the request succeeds and in `env404` a 404 response is converted
(both through the single POST request to the reboot endpoint). -/
theorem reboot_request_and_errors_witness :
    device.getId env0 (.id 7) = (.ok 7, [])
    ∧ (device.reboot env0 (.id 7) none).2
        = [Effect.httpRequest (device.rebootRequest env0 7 false)]
    ∧ (device.reboot env0 (.id 7) none).1 = .ok "OK"
    ∧ (device.reboot env404 (.id 7) none).1 = .error (.deviceNotFound (.id 7)) := by
  have h := reboot_request_and_errors env0 (.id 7) none 7 [] rfl
  have h404 := reboot_request_and_errors env404 (.id 7) none 7 [] rfl
  refine ⟨rfl, by simpa using h.1, ?_, ?_⟩
  · have := h.2.2.2.2.1 { body := "OK" } rfl
    simpa using this
  · have := (h404.2.2.2.2.2.1 { statusCode := 404, body := "Not Found" } rfl).2.1
      (by decide) (by decide)
    simpa using this

end BalenaSDK
